import Mathlib

set_option maxRecDepth 4000

/-!
Shallow embedding of the file-ingestion pipeline (`file_pipeline.py`) of the
GAKR AI backend: kind classification, target-path construction, the five
kind-specific analyzers, the dispatch table and the batch orchestrator.

External library calls (pandas, pdfplumber, PyMuPDF, python-docx, PIL,
pytesseract, whisper, ffmpeg) are modelled as oracles: per-call outcomes
(`Except String α`, the error carrying the exception's message) supplied as
inputs, so theorems quantify over every possible behaviour of the
collaborators.  Pure logic (extension splitting, truthiness checks, string
slicing, dict construction order, the UTF-8 error handler) is translated
directly from the source.
-/

namespace FilePipeline

/-- JSON-like values, the payload of analysis summaries. -/
inductive Val where
  | vnull : Val
  | vstr (s : String) : Val
  | vint (n : Int) : Val
  | vlist (xs : List Val) : Val
  | vdict (xs : List (String × Val)) : Val

/-- A summary is a Python dict: insertion-ordered key/value pairs. -/
abbrev Summary := List (String × Val)

/-- Does a summary carry an `error` field? -/
def hasError (s : Summary) : Bool :=
  (s.lookup "error").isSome

/- ============================================================
   Python string / path helpers used by the pipeline
   ============================================================ -/

/-- ASCII lowercase of one character, as CPython's `str.lower` acts on the
ASCII range (all extensions compared in the pipeline are ASCII). -/
def pyLowerChar (c : Char) : Char :=
  if 'A' ≤ c ∧ c ≤ 'Z' then Char.ofNat (c.toNat + 32) else c

/-- `os.path.basename`: the part of the path after the last `/`. -/
def basenameL (l : List Char) : List Char :=
  (l.reverse.takeWhile (fun c => c ≠ '/')).reverse

def pyBasename (s : String) : String :=
  ⟨basenameL s.data⟩

/-- The extension part of `os.path.splitext`, on the char list of a path:
split the basename at its last dot, provided some character strictly before
that dot (within the basename) is not itself a dot; otherwise no extension. -/
def splitextExtL (l : List Char) : List Char :=
  let base := basenameL l
  let revBase := base.reverse
  let afterDot := revBase.takeWhile (fun c => c ≠ '.')
  if afterDot.length = revBase.length then
    []  -- no dot in the basename
  else
    -- base = pre ++ '.' :: afterDot.reverse, where pre has no later dot
    let pre := base.take (base.length - afterDot.length - 1)
    if pre.any (fun c => c ≠ '.') then
      '.' :: afterDot.reverse
    else
      []

/-- `os.path.splitext(path)[1].lower()` as used by the pipeline. -/
def extOf (path : String) : String :=
  ⟨(splitextExtL path.data).map pyLowerChar⟩

/-- Python's `str.startswith`. -/
def pyStartsWith (s pre : String) : Bool :=
  pre.data.isPrefixOf s.data

/-- `os.path.join` of two components, POSIX semantics. -/
def pyJoin (a b : String) : String :=
  if b.data.head? = some '/' then b
  else if a = "" ∨ a.data.getLast? = some '/' then a ++ b
  else a ++ "/" ++ b

/-- `os.path.dirname`: everything before the last `/`, with trailing slashes
stripped unless the head is all slashes (POSIX `posixpath.dirname`). -/
def pyDirname (s : String) : String :=
  let r := s.data.reverse
  let afterSlash := r.takeWhile (fun c => c ≠ '/')
  if afterSlash.length = r.length then
    ""  -- no slash at all
  else
    let head := (r.drop afterSlash.length).reverse  -- includes trailing '/'
    if head.all (fun c => c = '/') then
      ⟨head⟩
    else
      ⟨(head.reverse.dropWhile (fun c => c = '/')).reverse⟩

/- ============================================================
   Kind classifier (`detect_kind`)
   ============================================================ -/

/-- The six extension lists tested, in source order. -/
def tabularExts : List String := [".csv", ".xlsx", ".xls", ".json"]

def pdfTxtExts : List String := [".pdf", ".txt"]

def docxExts : List String := [".docx"]

def imageExts : List String := [".png", ".jpg", ".jpeg", ".webp", ".bmp"]

def audioExts : List String := [".mp3", ".wav", ".m4a"]

def videoExts : List String := [".mp4", ".mkv", ".mov", ".avi"]

/-- Every extension appearing in the table. -/
def knownExts : List String :=
  tabularExts ++ pdfTxtExts ++ docxExts ++ imageExts ++ audioExts ++ videoExts

/-- `detect_kind(filename, content_type)`: extension table first, then the
declared content type's top-level media type, then `"other"`.
Translated line by line from the source. -/
def detect_kind (filename : String) (content_type : Option String) : String :=
  let ext := extOf filename
  if ext ∈ tabularExts then "tabular"
  else if ext ∈ pdfTxtExts then "document"
  else if ext ∈ docxExts then "document"
  else if ext ∈ imageExts then "image"
  else if ext ∈ audioExts then "audio"
  else if ext ∈ videoExts then "video"
  else
    match content_type with
    | some ct =>
        -- `if content_type:` — the empty string is falsy in Python
        if ct ≠ "" then
          if pyStartsWith ct "image/" then "image"
          else if pyStartsWith ct "audio/" then "audio"
          else if pyStartsWith ct "video/" then "video"
          else "other"
        else "other"
    | none => "other"

/- ============================================================
   Path builder (`make_target_path`)
   ============================================================ -/

/-- The `FOLDERS` table mapping a kind to its sub-directory. -/
def FOLDERS : List (String × String) :=
  [("image", "images"), ("video", "videos"), ("audio", "audio"),
   ("document", "documents"), ("tabular", "tabular"), ("other", "other")]

/-- `FOLDERS.get(kind, "other")`. -/
def folderOf (kind : String) : String :=
  (FOLDERS.lookup kind).getD "other"

/-- A UTC instant at microsecond resolution, the argument of `strftime`.
The wall clock itself is an input of the model. -/
structure DT where
  year : Nat
  month : Nat
  day : Nat
  hour : Nat
  minute : Nat
  second : Nat
  usec : Nat
deriving DecidableEq, Repr

/-- Zero-pad the decimal representation of `n` to width `w`. -/
def padNum (w : Nat) (n : Nat) : String :=
  let s := toString n
  ⟨List.replicate (w - s.length) '0'⟩ ++ s

/-- `datetime.utcnow().strftime("%Y%m%d_%H%M%S_%f")`. -/
def strftimeStamp (t : DT) : String :=
  padNum 4 t.year ++ padNum 2 t.month ++ padNum 2 t.day ++ "_" ++
  padNum 2 t.hour ++ padNum 2 t.minute ++ padNum 2 t.second ++ "_" ++
  padNum 6 t.usec

/-- `make_target_path(kind, filename)`: `UPLOAD_ROOT` is abstracted as the
`root` argument and the wall clock as `t`; otherwise a direct translation. -/
def make_target_path (root : String) (kind : String) (filename : String)
    (t : DT) : String :=
  let sub := folderOf kind
  let safe_name := pyBasename filename
  let timestamp := strftimeStamp t
  let final_name := timestamp ++ "_" ++ safe_name
  pyJoin (pyJoin root sub) final_name

/- ============================================================
   UTF-8 decoding (`open(..., encoding="utf-8", errors=...)`)
   ============================================================ -/

/-- Is `b` a UTF-8 continuation byte (`0x80..0xBF`)? -/
def contByte (b : Nat) : Bool :=
  0x80 ≤ b ∧ b ≤ 0xBF

/-- Decode a UTF-8 byte stream, emitting `bad` for each maximal ill-formed
subsequence (CPython's error-handler behaviour: `bad = []` is
`errors="ignore"`, `bad = [U+FFFD]` is `errors="replace"`).  Every step
consumes at least one byte; the recursion is made structural on a fuel
argument (instantiated with the stream length) so the function reduces
definitionally. -/
def utf8RunAux (bad : List Char) : Nat → List Nat → List Char
  | _, [] => []
  | 0, _ :: _ => []
  | fuel + 1, b :: rest =>
    if b < 0x80 then
      Char.ofNat b :: utf8RunAux bad fuel rest
    else if b < 0xC2 then
      bad ++ utf8RunAux bad fuel rest
    else if b ≤ 0xDF then
      match rest with
      | b2 :: rest2 =>
        if contByte b2 then
          Char.ofNat ((b - 0xC0) * 64 + (b2 - 0x80)) :: utf8RunAux bad fuel rest2
        else bad ++ utf8RunAux bad fuel (b2 :: rest2)
      | [] => bad
    else if b ≤ 0xEF then
      -- second-byte range narrows for 0xE0 (no overlongs) and 0xED (no surrogates)
      let lo2 := if b = 0xE0 then 0xA0 else 0x80
      let hi2 := if b = 0xED then 0x9F else 0xBF
      match rest with
      | b2 :: rest2 =>
        if lo2 ≤ b2 ∧ b2 ≤ hi2 then
          match rest2 with
          | b3 :: rest3 =>
            if contByte b3 then
              Char.ofNat ((b - 0xE0) * 4096 + (b2 - 0x80) * 64 + (b3 - 0x80)) ::
                utf8RunAux bad fuel rest3
            else bad ++ utf8RunAux bad fuel (b3 :: rest3)
          | [] => bad
        else bad ++ utf8RunAux bad fuel (b2 :: rest2)
      | [] => bad
    else if b ≤ 0xF4 then
      let lo2 := if b = 0xF0 then 0x90 else 0x80
      let hi2 := if b = 0xF4 then 0x8F else 0xBF
      match rest with
      | b2 :: rest2 =>
        if lo2 ≤ b2 ∧ b2 ≤ hi2 then
          match rest2 with
          | b3 :: rest3 =>
            if contByte b3 then
              match rest3 with
              | b4 :: rest4 =>
                if contByte b4 then
                  Char.ofNat ((b - 0xF0) * 262144 + (b2 - 0x80) * 4096 +
                    (b3 - 0x80) * 64 + (b4 - 0x80)) :: utf8RunAux bad fuel rest4
                else bad ++ utf8RunAux bad fuel (b4 :: rest4)
              | [] => bad
            else bad ++ utf8RunAux bad fuel (b3 :: rest3)
          | [] => bad
        else bad ++ utf8RunAux bad fuel (b2 :: rest2)
      | [] => bad
    else
      bad ++ utf8RunAux bad fuel rest

def utf8Run (bad : List Char) (bs : List Nat) : List Char :=
  utf8RunAux bad bs.length bs

/-- `bytes.decode("utf-8", errors="ignore")`: ill-formed input is dropped.
This is the decoding stage of the source's
`open(path, "r", encoding="utf-8", errors="ignore")`. -/
def decodeUtf8Ignore (bs : List Nat) : String :=
  ⟨utf8Run [] bs⟩

/-- Universal-newlines translation performed by text-mode reads with the
default `newline=None`: `"\r\n"` and a lone `"\r"` both become `"\n"`. -/
def universalNewlines : List Char → List Char
  | [] => []
  | '\r' :: '\n' :: rest => '\n' :: universalNewlines rest
  | '\r' :: rest => '\n' :: universalNewlines rest
  | c :: rest => c :: universalNewlines rest

/-- What `f.read()` returns for `open(path, "r", encoding="utf-8",
errors="ignore")`: UTF-8 decoding with the ignore error handler, followed by
universal-newlines translation. -/
def pyReadText (bs : List Nat) : String :=
  ⟨universalNewlines (decodeUtf8Ignore bs).data⟩

/-- Modelled from the spec: decoding that substitutes a replacement character
(U+FFFD) for undecodable input — `errors="replace"` — which is what the spec's
words "substituting replacement characters" describe.  Used only to state the
specification side of the plain-text claim; the source uses
`errors="ignore"`. -/
def decodeUtf8Replace (bs : List Nat) : String :=
  ⟨utf8Run [Char.ofNat 0xFFFD] bs⟩

/-- ASCII/latin whitespace recognised by `str.strip()` (the characters that
matter for paragraph truthiness in the DOCX branch). -/
def pyIsSpace (c : Char) : Bool :=
  c = ' ' ∨ c = '\t' ∨ c = '\n' ∨ c = '\r' ∨ c = '\x0b' ∨ c = '\x0c'

/- ============================================================
   Tabular analyzer (`analyze_tabular`)
   ============================================================ -/

/-- The observable part of a loaded pandas DataFrame: `df.shape[0]` and
`df.columns` (already stringified). -/
structure DataFrame where
  nrows : Nat
  cols : List String

/-- Outcomes of the pandas calls made by `analyze_tabular`. -/
structure TabularOracle where
  read_csv : Except String DataFrame
  read_excel : Except String DataFrame
  read_json : Except String DataFrame
  isnaSum : Except String (List (String × Val))   -- `df.isna().sum().to_dict()`
  describe : Except String (List (String × Val))  -- `df.describe(include="number").to_dict()`

/-- Which pandas loader `analyze_tabular` runs for a path, and its outcome;
`none` when the extension matches no loader (the `else` branch). -/
def tabularLoad (path : String) (o : TabularOracle) :
    Option (Except String DataFrame) :=
  let ext := extOf path
  if ext = ".csv" then some o.read_csv
  else if ext ∈ [".xlsx", ".xls"] then some o.read_excel
  else if ext = ".json" then some o.read_json
  else none

def analyze_tabular (path : String) (o : TabularOracle) : Summary :=
  let ext := extOf path
  match tabularLoad path o with
  | none =>
      [("type", .vstr "tabular"),
       ("error", .vstr ("Unsupported tabular format: " ++ ext))]
  | some (.error e) =>
      [("type", .vstr "tabular"),
       ("error", .vstr ("Failed to load table: " ++ e))]
  | some (.ok df) =>
      let s0 : Summary :=
        [("type", .vstr "tabular"),
         ("rows", .vint df.nrows),
         ("columns", .vlist (df.cols.map .vstr))]
      let s1 : Summary :=
        match o.isnaSum with
        | .ok mv => s0 ++ [("missing_values", .vdict mv)]
        | .error e => s0 ++ [("missing_values_error", .vstr e)]
      match o.describe with
      | .ok st => s1 ++ [("numeric_stats", .vdict st)]
      | .error _ => s1 ++ [("numeric_stats", .vdict [])]

/- ============================================================
   Document analyzer (`analyze_document`)
   ============================================================ -/

/-- Outcomes of the library calls made by `analyze_document`:
`pdfplumber` page texts (`extract_text` may return `None`), PyMuPDF page
texts, DOCX paragraph texts, and the raw bytes of the file for the
plain-text branch (`.error` = the call raised). -/
structure DocOracle where
  plumberPages : Except String (List (Option String))
  fitzPages : Except String (List String)
  docxParas : Except String (List String)
  fileBytes : Except String (List Nat)

/-- `t = page.extract_text(); if t: pages.append(t)` — keep only truthy
page text. -/
def plumberPageText (t : Option String) : Option String :=
  match t with
  | some s => if s ≠ "" then some s else none
  | none => none

/-- The text the pdfplumber loop produces: first 10 pages, truthy texts,
joined by newlines. -/
def plumberText (ps : List (Option String)) : String :=
  String.intercalate "\n" ((ps.take 10).filterMap plumberPageText)

/-- The text the PyMuPDF fallback loop produces: `get_text` of the first 10
pages joined by newlines. -/
def fitzText (chunks : List String) : String :=
  String.intercalate "\n" (chunks.take 10)

/-- `[p.text for p in d.paragraphs if p.text.strip()]` joined by newlines. -/
def docxText (paras : List String) : String :=
  String.intercalate "\n"
    (paras.filter (fun p => p.data.any (fun c => !pyIsSpace c)))

def analyze_document (path : String) (o : DocOracle) : Summary :=
  let ext := extOf path
  let textRes : Except String String :=
    if ext = ".pdf" then
      match o.plumberPages with
      | .ok ps => .ok (plumberText ps)
      | .error _ =>
          -- fallback to PyMuPDF, `for page in doc[:10]`
          match o.fitzPages with
          | .ok chunks => .ok (fitzText chunks)
          | .error e => .error e
    else if ext = ".docx" then
      match o.docxParas with
      | .ok paras => .ok (docxText paras)
      | .error e => .error e
    else
      -- `.txt` or unknown plain text: text-mode read, `errors="ignore"`
      match o.fileBytes with
      | .ok bs => .ok (pyReadText bs)
      | .error e => .error e
  match textRes with
  | .error e =>
      [("type", .vstr "document"),
       ("error", .vstr ("Failed to extract document text: " ++ e))]
  | .ok text =>
      [("type", .vstr "document"),
       ("char_count", .vint text.length),
       ("preview", .vstr (text.take 4000))]

/- ============================================================
   Image analyzer (`analyze_image`)
   ============================================================ -/

/-- The observable part of a PIL image: its dimensions. -/
structure Img where
  width : Nat
  height : Nat

structure ImageOracle where
  openImage : Except String Img    -- `Image.open(path)`
  ocr : Except String String       -- `pytesseract.image_to_string(img)`

def analyze_image (_path : String) (o : ImageOracle) : Summary :=
  match o.openImage with
  | .error e =>
      [("type", .vstr "image"), ("error", .vstr ("Failed to open image: " ++ e))]
  | .ok img =>
      let p : String × Option String :=
        match o.ocr with
        | .ok t => (t, none)
        | .error e => ("", some e)
      let short := p.1.take 2000
      let base : Summary :=
        [("type", .vstr "image"),
         ("size", .vdict [("width", .vint img.width), ("height", .vint img.height)]),
         ("ocr_preview", .vstr short)]
      match p.2 with
      | some e => if e ≠ "" then base ++ [("ocr_error", .vstr e)] else base
      | none => base

/- ============================================================
   Audio analyzer (`get_whisper_model`, `analyze_audio`)
   ============================================================ -/

/-- An abstract loaded Whisper model instance. -/
structure WhisperModel where
  id : Nat
deriving DecidableEq, Repr

/-- One entry of `result["segments"]`; `endTime` is `segment.get("end", None)`. -/
structure Segment where
  endTime : Option Val

/-- The observable part of `model.transcribe(path)`: `result.get("text", "")`
(`none` = key absent or `None`) and `result.get("segments")`. -/
structure TranscribeResult where
  text : Option String
  segments : Option (List Segment)

/-- `get_whisper_model()`: the module-global `_whisper_model` is threaded as
explicit state; `load` is the outcome `whisper.load_model("small")` would
have if invoked now.  Returns the new state and the call's result
(`.error` = the wrapped RuntimeError it raises). -/
def get_whisper_model (st : Option WhisperModel)
    (load : Except String WhisperModel) :
    Option WhisperModel × Except String WhisperModel :=
  match st with
  | some m => (some m, .ok m)
  | none =>
      match load with
      | .ok m => (some m, .ok m)
      | .error e => (none, .error ("Failed to load Whisper model: " ++ e))

structure AudioOracle where
  load : Except String WhisperModel
  transcribe : Except String TranscribeResult

def analyze_audio (st : Option WhisperModel) (_path : String)
    (o : AudioOracle) : Option WhisperModel × Summary :=
  match get_whisper_model st o.load with
  | (st', .error e) =>
      (st', [("type", .vstr "audio"), ("error", .vstr e)])
  | (st', .ok _m) =>
      match o.transcribe with
      | .error e =>
          (st', [("type", .vstr "audio"),
                 ("error", .vstr ("Whisper transcription failed: " ++ e))])
      | .ok r =>
          -- `text = result.get("text", "") or ""`
          let text := r.text.getD ""
          let short := text.take 4000
          -- `if result.get("segments"): duration = result["segments"][-1].get("end", None)`
          let dur : Val :=
            match r.segments with
            | some segs =>
                match segs.getLast? with
                | some seg => seg.endTime.getD .vnull
                | none => .vnull
            | none => .vnull
          (st', [("type", .vstr "audio"),
                 ("duration_sec", dur),
                 ("transcript_preview", .vstr short)])

/- ============================================================
   Video analyzer (`analyze_video`)
   ============================================================ -/

/-- The filesystem, as a presence predicate on paths. -/
abbrev FS := String → Bool

structure VideoOracle where
  extract : Except String Unit   -- the ffmpeg extraction pipeline
  audio : AudioOracle

def analyze_video (fs : FS) (st : Option WhisperModel) (path : String)
    (o : VideoOracle) : FS × Option WhisperModel × Summary :=
  let audio_path := path ++ ".tmp_audio.wav"
  match o.extract with
  | .error e =>
      (fs, st, [("type", .vstr "video"),
                ("error", .vstr ("Failed to extract audio from video: " ++ e))])
  | .ok _ =>
      -- ffmpeg wrote the temporary audio file
      let fs1 : FS := fun p => if p = audio_path then true else fs p
      let r := analyze_audio st audio_path o.audio
      -- finally: `if os.path.exists(audio_path): os.remove(audio_path)`
      let fs2 : FS :=
        if fs1 audio_path then (fun p => if p = audio_path then false else fs1 p)
        else fs1
      (fs2, r.1, [("type", .vstr "video"), ("audio_analysis", .vdict r.2)])

/- ============================================================
   Extraction dispatcher (`analyze_file`)
   ============================================================ -/

structure AnalyzerOracle where
  tab : TabularOracle
  doc : DocOracle
  img : ImageOracle
  audio : AudioOracle
  video : VideoOracle

def analyze_file (fs : FS) (st : Option WhisperModel) (path : String)
    (kind : String) (o : AnalyzerOracle) :
    FS × Option WhisperModel × Summary :=
  if kind = "tabular" then (fs, st, analyze_tabular path o.tab)
  else if kind = "document" then (fs, st, analyze_document path o.doc)
  else if kind = "image" then (fs, st, analyze_image path o.img)
  else if kind = "audio" then
    let r := analyze_audio st path o.audio
    (fs, r.1, r.2)
  else if kind = "video" then analyze_video fs st path o.video
  else (fs, st, [("type", .vstr "other"),
                 ("note", .vstr "Unsupported or unknown file type")])

/- ============================================================
   Batch orchestrator (`process_files`)
   ============================================================ -/

/-- `UPLOAD_ROOT` relative to `BASE_DIR` (stored paths are reported through
`os.path.relpath(target_path, BASE_DIR)`, i.e. starting at `dataupload`). -/
def UPLOAD_ROOT : String := "dataupload"

/-- One uploaded file together with the outcomes of the effectful steps the
orchestrator runs for it: `filename` may be `None` (FastAPI's
`UploadFile.filename` is optional), `save` is the `open`/`read`/`write`
block, `analysis` the `analyze_file(...)` call (`.error` = it raised). -/
structure UploadFile where
  filename : Option String
  content_type : Option String
  now : DT
  save : Except String Unit
  analysis : Except String Summary

/-- One record of the batch result. -/
structure FileRecord where
  original_name : Option String
  stored_path : Option String
  kind : String
  summary : Summary

/-- The message of the TypeError `os.path.splitext(None)` raises, which is
what reaches the outer handler when `filename` is `None`. -/
def splitextNoneMsg : String :=
  "expected str, bytes or os.PathLike object, not NoneType"

/-- The body of the `for uf in files:` loop: produces exactly one record on
every control path (save failure → `continue` after appending; any
unexpected error → the outer `except` appends the fatal record, where
`getattr(uf, "filename", "unknown")` yields the present-but-`None`
attribute). -/
def processOne (uf : UploadFile) : FileRecord :=
  match uf.filename with
  | none =>
      { original_name := none, stored_path := none, kind := "unknown",
        summary := [("error",
          .vstr ("Fatal error while handling file: " ++ splitextNoneMsg))] }
  | some name =>
      let kind := detect_kind name uf.content_type
      let target := make_target_path UPLOAD_ROOT kind name uf.now
      match uf.save with
      | .error e =>
          { original_name := some name, stored_path := none, kind := kind,
            summary := [("error", .vstr ("Failed to save file: " ++ e))] }
      | .ok _ =>
          let summary :=
            match uf.analysis with
            | .ok s => s
            | .error e => [("error", .vstr ("Unexpected error in analysis: " ++ e))]
          { original_name := some name, stored_path := some target,
            kind := kind, summary := summary }

/-- The `{"files": results}` payload. -/
structure BatchResult where
  files : List FileRecord

/-- `process_files(files)`: the loop appends `processOne uf` for each `uf`,
in order. -/
def process_files (files : List UploadFile) : BatchResult :=
  { files := files.map processOne }

/- ============================================================
   Concrete fixtures used by witnesses
   ============================================================ -/

/-- An empty filesystem. -/
def emptyFS : FS := fun _ => false

def dt0 : DT := ⟨2025, 1, 2, 3, 4, 5, 6⟩

def demoDF : DataFrame := ⟨2, ["a", "b"]⟩

def demoTab : TabularOracle :=
  ⟨.ok demoDF, .ok demoDF, .ok demoDF,
   .ok [("a", .vint 0), ("b", .vint 1)], .ok []⟩

def demoDoc : DocOracle :=
  ⟨.ok [some "page one"], .ok ["page one"], .ok ["hello"], .ok [0x68, 0x69]⟩

def demoImg : ImageOracle := ⟨.ok ⟨10, 20⟩, .ok "scanned text"⟩

def demoAudio : AudioOracle := ⟨.ok ⟨1⟩, .ok ⟨some "hi there", none⟩⟩

def failAudio : AudioOracle := ⟨.error "weights missing", .ok ⟨some "hi", none⟩⟩

def demoVideo : VideoOracle := ⟨.ok (), demoAudio⟩

def demoOracle : AnalyzerOracle := ⟨demoTab, demoDoc, demoImg, demoAudio, demoVideo⟩

/- ============================================================
   Claim theorems
   ============================================================ -/

/-- C8 counterexample: for a kind outside the five supported ones,
`analyze_file` does return a two-field `other` summary, but its `note`
value is `"Unsupported or unknown file type"`, not the claimed literal
`"unsupported"`. -/
theorem C8_dispatcher_note_counterexample :
    (analyze_file emptyFS none "f.zip" "archive" demoOracle).2.2 =
      [("type", Val.vstr "other"),
       ("note", Val.vstr "Unsupported or unknown file type")] ∧
    (analyze_file emptyFS none "f.zip" "archive" demoOracle).2.2 ≠
      [("type", Val.vstr "other"), ("note", Val.vstr "unsupported")] := by
  refine ⟨rfl, fun h => ?_⟩
  have hv : ([("type", Val.vstr "other"),
              ("note", Val.vstr "Unsupported or unknown file type")] : Summary) =
      [("type", Val.vstr "other"), ("note", Val.vstr "unsupported")] := h
  simp only [List.cons.injEq, Prod.mk.injEq, Val.vstr.injEq, and_true, true_and] at hv
  exact absurd hv (by decide)

/-- C8 (amended): for every kind outside the five supported kinds, the
dispatcher returns exactly `{type: "other", note: "Unsupported or unknown
file type"}` — the filesystem, the model state and the oracles are
untouched — rather than failing. -/
theorem C8_dispatcher_unsupported_kind (fs : FS) (st : Option WhisperModel)
    (path kind : String) (o : AnalyzerOracle)
    (h : kind ∉ ["tabular", "document", "image", "audio", "video"]) :
    analyze_file fs st path kind o =
      (fs, st, [("type", Val.vstr "other"),
                ("note", Val.vstr "Unsupported or unknown file type")]) := by
  simp only [List.mem_cons, List.not_mem_nil, or_false, not_or] at h
  obtain ⟨h1, h2, h3, h4, h5⟩ := h
  simp [analyze_file, h1, h2, h3, h4, h5]

/-- C8 witness: the amended theorem applied at the kind `"archive"`. -/
theorem C8_dispatcher_unsupported_kind_witness :
    analyze_file emptyFS none "f.zip" "archive" demoOracle =
      (emptyFS, none, [("type", Val.vstr "other"),
                       ("note", Val.vstr "Unsupported or unknown file type")]) :=
  C8_dispatcher_unsupported_kind emptyFS none "f.zip" "archive" demoOracle
    (by decide)

/-- C2: the Whisper model is lazily loaded and cached at most once per
process: (1) with a cached model the accessor returns it and never consults
the loader; (2) a first successful load is cached; (3) a load failure makes
`analyze_audio` return `{type: "audio", error: ...}` and caches nothing;
(4) hence the call after a failed load attempts the load again and a then
successful load is cached and returned. -/
theorem C2_whisper_lazy_singleton :
    (∀ (m : WhisperModel) (load : Except String WhisperModel),
       get_whisper_model (some m) load = (some m, .ok m)) ∧
    (∀ (m : WhisperModel), get_whisper_model none (.ok m) = (some m, .ok m)) ∧
    (∀ (e path : String) (o : AudioOracle), o.load = .error e →
       analyze_audio none path o =
         (none, [("type", Val.vstr "audio"),
                 ("error", Val.vstr ("Failed to load Whisper model: " ++ e))])) ∧
    (∀ (e path path' : String) (o o' : AudioOracle) (m : WhisperModel),
       o.load = .error e → o'.load = .ok m →
       (analyze_audio (analyze_audio none path o).1 path' o').1 = some m) := by
  refine ⟨fun m load => rfl, fun m => rfl, ?_, ?_⟩
  · intro e path o h
    simp [analyze_audio, get_whisper_model, h]
  · intro e path path' o o' m h h'
    rcases ht : o'.transcribe with e' | r <;>
      simp [analyze_audio, get_whisper_model, h, h', ht]

/-- C2 witness: each conjunct at concrete inputs (a cached model `⟨7⟩`, a
fresh successful load of `⟨3⟩`, a failed load, and a retry after failure). -/
theorem C2_whisper_lazy_singleton_witness :
    get_whisper_model (some ⟨7⟩) (.error "down") = (some ⟨7⟩, .ok ⟨7⟩) ∧
    get_whisper_model none (.ok ⟨3⟩) = (some ⟨3⟩, .ok ⟨3⟩) ∧
    analyze_audio none "a.mp3" failAudio =
      (none, [("type", Val.vstr "audio"),
              ("error", Val.vstr ("Failed to load Whisper model: " ++
                "weights missing"))]) ∧
    (analyze_audio (analyze_audio none "a.mp3" failAudio).1 "b.mp3" demoAudio).1 =
      some ⟨1⟩ :=
  ⟨C2_whisper_lazy_singleton.1 ⟨7⟩ (.error "down"),
   C2_whisper_lazy_singleton.2.1 ⟨3⟩,
   C2_whisper_lazy_singleton.2.2.1 "weights missing" "a.mp3" failAudio rfl,
   C2_whisper_lazy_singleton.2.2.2 "weights missing" "a.mp3" "b.mp3"
     failAudio demoAudio ⟨1⟩ rfl rfl⟩

/-- C3: on every video input whose audio extraction succeeds, the temporary
sibling audio file is absent from the filesystem when `analyze_video`
returns — whatever the audio analysis did — and the summary wraps that
analysis; if the extraction itself fails, `analyze_video` returns the error
summary immediately, with the filesystem and model state untouched and
without invoking the audio analyzer (the result does not depend on the
audio oracle at all). -/
theorem C3_video_temp_cleanup :
    (∀ (fs : FS) (st : Option WhisperModel) (path : String) (o : VideoOracle),
       o.extract = .ok () →
       (analyze_video fs st path o).1 (path ++ ".tmp_audio.wav") = false ∧
       (analyze_video fs st path o).2.2 =
         [("type", Val.vstr "video"),
          ("audio_analysis",
            Val.vdict (analyze_audio st (path ++ ".tmp_audio.wav") o.audio).2)]) ∧
    (∀ (fs : FS) (st : Option WhisperModel) (path e : String) (o : VideoOracle),
       o.extract = .error e →
       analyze_video fs st path o =
         (fs, st, [("type", Val.vstr "video"),
                   ("error", Val.vstr ("Failed to extract audio from video: " ++ e))])) := by
  constructor
  · intro fs st path o h
    simp [analyze_video, h]
  · intro fs st path e o h
    simp [analyze_video, h]

/-- C3 witness: a video whose audio analysis fails (Whisper load failure)
still has the temporary file removed, and a failed extraction returns the
error summary with the filesystem unchanged. -/
theorem C3_video_temp_cleanup_witness :
    (analyze_video emptyFS none "v.mp4" ⟨.ok (), failAudio⟩).1
        ("v.mp4" ++ ".tmp_audio.wav") = false ∧
    analyze_video emptyFS none "v.mp4" ⟨.error "codec", demoAudio⟩ =
      (emptyFS, none,
       [("type", Val.vstr "video"),
        ("error", Val.vstr ("Failed to extract audio from video: " ++ "codec"))]) :=
  ⟨(C3_video_temp_cleanup.1 emptyFS none "v.mp4" ⟨.ok (), failAudio⟩ rfl).1,
   C3_video_temp_cleanup.2 emptyFS none "v.mp4" "codec"
     ⟨.error "codec", demoAudio⟩ rfl⟩

/-- C10: whenever the tabular loader succeeds, the summary carries `type`,
`rows` and `columns` (and no `error` field), and the two post-load
computations fail independently per field: a missing-value failure only adds
`missing_values_error`, a statistics failure only sets `numeric_stats` to the
empty mapping. -/
theorem C10_tabular_partial_failure_isolation (path : String)
    (o : TabularOracle) (df : DataFrame)
    (hload : tabularLoad path o = some (.ok df)) :
    ((analyze_tabular path o).lookup "type" = some (.vstr "tabular") ∧
     (analyze_tabular path o).lookup "rows" = some (.vint df.nrows) ∧
     (analyze_tabular path o).lookup "columns" =
       some (.vlist (df.cols.map .vstr)) ∧
     (analyze_tabular path o).lookup "error" = none) ∧
    (∀ e, o.isnaSum = .error e →
       (analyze_tabular path o).lookup "missing_values_error" =
         some (.vstr e)) ∧
    (∀ e, o.describe = .error e →
       (analyze_tabular path o).lookup "numeric_stats" = some (.vdict [])) := by
  rcases hm : o.isnaSum with em | mv <;> rcases hd : o.describe with ed | st <;>
    simp [analyze_tabular, hload, hm, hd, List.lookup]

/-- A tabular oracle whose load succeeds but whose two post-load
computations both fail. -/
def demoTabFail : TabularOracle :=
  ⟨.ok demoDF, .ok demoDF, .ok demoDF,
   .error "mixed types", .error "no numeric data"⟩

/-- C10 witness: a CSV whose load succeeds but whose missing-value count and
numeric statistics both fail. -/
theorem C10_tabular_partial_failure_isolation_witness :
    (analyze_tabular "t.csv" demoTabFail).lookup "rows" = some (.vint 2) ∧
    (analyze_tabular "t.csv" demoTabFail).lookup "missing_values_error" =
      some (.vstr "mixed types") ∧
    (analyze_tabular "t.csv" demoTabFail).lookup "numeric_stats" =
      some (.vdict []) :=
  ⟨(C10_tabular_partial_failure_isolation "t.csv" demoTabFail demoDF rfl).1.2.1,
   (C10_tabular_partial_failure_isolation "t.csv" demoTabFail demoDF rfl).2.1
     "mixed types" rfl,
   (C10_tabular_partial_failure_isolation "t.csv" demoTabFail demoDF rfl).2.2
     "no numeric data" rfl⟩

/-- C7 counterexample: an OCR failure whose exception message is the empty
string is *not* reported — the summary has no `ocr_error` field (the code
guards the field behind Python truthiness, `if ocr_error:`), although
width/height are still present. -/
theorem C7_image_empty_ocr_error_counterexample :
    (analyze_image "p.png" ⟨.ok ⟨10, 20⟩, .error ""⟩).lookup "size" =
      some (.vdict [("width", Val.vint 10), ("height", Val.vint 20)]) ∧
    (analyze_image "p.png" ⟨.ok ⟨10, 20⟩, .error ""⟩).lookup "error" = none ∧
    (analyze_image "p.png" ⟨.ok ⟨10, 20⟩, .error ""⟩).lookup "ocr_error" =
      none :=
  ⟨rfl, rfl, rfl⟩

/-- C7 (amended): for every image that opens successfully an OCR failure
does not invalidate the result — width and height are always reported, the
summary is never an error summary, and the OCR failure is reported in a
separate `ocr_error` field whenever its message is non-empty (an
empty-string message is falsy and the field is omitted); only a failure to
open the image makes the whole summary `{type: "image", error: ...}`, and
`analyze_image` never raises (it is a total function). -/
theorem C7_image_ocr_failure_isolation (path : String) (o : ImageOracle) :
    (∀ img, o.openImage = .ok img →
       (analyze_image path o).lookup "size" =
         some (.vdict [("width", .vint img.width),
                       ("height", .vint img.height)]) ∧
       (analyze_image path o).lookup "error" = none ∧
       (∀ e, o.ocr = .error e → e ≠ "" →
          (analyze_image path o).lookup "ocr_error" = some (.vstr e))) ∧
    (∀ e, o.openImage = .error e →
       analyze_image path o =
         [("type", .vstr "image"),
          ("error", .vstr ("Failed to open image: " ++ e))]) := by
  constructor
  · intro img hopen
    rcases hocr : o.ocr with e | t
    · by_cases he : e = ""
      · subst he
        refine ⟨?_, ?_, fun e' he' hne => ?_⟩
        · simp [analyze_image, hopen, hocr, List.lookup]
        · simp [analyze_image, hopen, hocr, List.lookup]
        · injection he' with h
          exact absurd rfl (h ▸ hne)
      · refine ⟨?_, ?_, fun e' he' hne => ?_⟩
        · simp [analyze_image, hopen, hocr, he, List.lookup]
        · simp [analyze_image, hopen, hocr, he, List.lookup]
        · injection he' with h
          subst h
          simp [analyze_image, hopen, hocr, he, List.lookup]
    · refine ⟨?_, ?_, fun e' he' hne => ?_⟩
      · simp [analyze_image, hopen, hocr, List.lookup]
      · simp [analyze_image, hopen, hocr, List.lookup]
      · exact Except.noConfusion he'
  · intro e hopen
    simp [analyze_image, hopen]

/-- C7 witness: an image of size 10×20 whose OCR raises with a non-empty
message keeps its size and gains an `ocr_error` field; an unreadable image
yields the hard error summary. -/
theorem C7_image_ocr_failure_isolation_witness :
    (analyze_image "p.png" ⟨.ok ⟨10, 20⟩, .error "tesseract is not installed"⟩).lookup
      "size" = some (.vdict [("width", .vint 10), ("height", .vint 20)]) ∧
    (analyze_image "p.png" ⟨.ok ⟨10, 20⟩, .error "tesseract is not installed"⟩).lookup
      "ocr_error" = some (.vstr "tesseract is not installed") ∧
    analyze_image "q.png" ⟨.error "cannot identify image file", .ok ""⟩ =
      [("type", Val.vstr "image"),
       ("error", Val.vstr ("Failed to open image: " ++ "cannot identify image file"))] :=
  ⟨((C7_image_ocr_failure_isolation "p.png"
       ⟨.ok ⟨10, 20⟩, .error "tesseract is not installed"⟩).1 ⟨10, 20⟩ rfl).1,
   ((C7_image_ocr_failure_isolation "p.png"
       ⟨.ok ⟨10, 20⟩, .error "tesseract is not installed"⟩).1 ⟨10, 20⟩ rfl).2.2
     "tesseract is not installed" rfl (by decide),
   (C7_image_ocr_failure_isolation "q.png"
       ⟨.error "cannot identify image file", .ok ""⟩).2
     "cannot identify image file" rfl⟩

/-- C5: for every PDF input the document analyzer (1) on pdfplumber success
reports the text of at most the first 10 pages (the outcome is unchanged if
the page list is truncated to 10) and never consults the fallback; (2) on a
pdfplumber failure falls back to PyMuPDF, again capped at 10 pages; (3) when
both paths fail it returns a summary with an `error` field instead of
raising. -/
theorem C5_pdf_primary_fallback (path : String) (o : DocOracle)
    (hext : extOf path = ".pdf") :
    (∀ ps, o.plumberPages = .ok ps →
       analyze_document path o =
         [("type", Val.vstr "document"),
          ("char_count", Val.vint (plumberText ps).length),
          ("preview", Val.vstr ((plumberText ps).take 4000))] ∧
       analyze_document path o =
         analyze_document path { o with plumberPages := .ok (ps.take 10) }) ∧
    (∀ e chunks, o.plumberPages = .error e → o.fitzPages = .ok chunks →
       analyze_document path o =
         [("type", Val.vstr "document"),
          ("char_count", Val.vint (fitzText chunks).length),
          ("preview", Val.vstr ((fitzText chunks).take 4000))] ∧
       analyze_document path o =
         analyze_document path { o with fitzPages := .ok (chunks.take 10) }) ∧
    (∀ e e', o.plumberPages = .error e → o.fitzPages = .error e' →
       analyze_document path o =
         [("type", Val.vstr "document"),
          ("error", Val.vstr ("Failed to extract document text: " ++ e'))]) := by
  refine ⟨fun ps hp => ⟨?_, ?_⟩, fun e chunks hp hf => ⟨?_, ?_⟩, fun e e' hp hf => ?_⟩
  · simp [analyze_document, hext, hp]
  · simp [analyze_document, hext, hp, plumberText, List.take_take]
  · simp [analyze_document, hext, hp, hf]
  · simp [analyze_document, hext, hp, hf, fitzText, List.take_take]
  · simp [analyze_document, hext, hp, hf]

/-- A 12-page pdfplumber outcome: one `None` page, one empty-text page. -/
def pages12 : List (Option String) :=
  [some "p1", none, some "", some "p4", some "p5", some "p6", some "p7",
   some "p8", some "p9", some "p10", some "p11", some "p12"]

def plumb12Oracle : DocOracle := ⟨.ok pages12, .ok ["x"], .ok [], .ok []⟩

def plumbFailOracle : DocOracle :=
  ⟨.error "pdfplumber: bad xref", .ok ["c1", "c2"], .ok [], .ok []⟩

def bothFailOracle : DocOracle :=
  ⟨.error "pdfplumber: bad xref", .error "fitz: cannot open", .ok [], .ok []⟩

/-- C5 witness: a 12-page PDF keeps only the truthy texts of its first 10
pages; a primary failure uses the fallback pages; a double failure yields
the error summary. -/
theorem C5_pdf_primary_fallback_witness :
    analyze_document "r.pdf" plumb12Oracle =
      [("type", Val.vstr "document"),
       ("char_count", Val.vint 24),
       ("preview", Val.vstr "p1\np4\np5\np6\np7\np8\np9\np10")] ∧
    analyze_document "r.pdf" plumbFailOracle =
      [("type", Val.vstr "document"),
       ("char_count", Val.vint 5),
       ("preview", Val.vstr "c1\nc2")] ∧
    analyze_document "r.pdf" bothFailOracle =
      [("type", Val.vstr "document"),
       ("error", Val.vstr ("Failed to extract document text: " ++
         "fitz: cannot open"))] := by
  refine ⟨?_, ?_, ?_⟩
  · have h :=
      ((C5_pdf_primary_fallback "r.pdf" plumb12Oracle rfl).1 pages12 rfl).1
    refine h.trans ?_
    simp only [String.take_eq]
    rfl
  · have h :=
      ((C5_pdf_primary_fallback "r.pdf" plumbFailOracle rfl).2.1
        "pdfplumber: bad xref" ["c1", "c2"] rfl rfl).1
    refine h.trans ?_
    simp only [String.take_eq]
    rfl
  · exact (C5_pdf_primary_fallback "r.pdf" bothFailOracle rfl).2.2
      "pdfplumber: bad xref" "fitz: cannot open" rfl rfl

/-- C6 counterexample: a text file whose bytes are `FF 61 62 63`.  The code
(a text-mode read decoding with `errors="ignore"`) reports
`char_count = 3` — the invalid byte is dropped — whereas decoding by
substituting a replacement character for the undecodable byte, as the claim
states, yields 4 characters. -/
theorem C6_text_ignore_vs_replace_counterexample :
    (analyze_document "n.txt"
        ⟨.ok [], .ok [], .ok [], .ok [0xFF, 0x61, 0x62, 0x63]⟩).lookup
      "char_count" = some (.vint 3) ∧
    (decodeUtf8Replace [0xFF, 0x61, 0x62, 0x63]).length = 4 ∧
    (3 : Int) ≠ 4 :=
  ⟨rfl, rfl, by decide⟩

/-- C6 (amended): for every plain-text (non-PDF, non-DOCX) input the
document analyzer performs a text-mode UTF-8 read, tolerating decode errors
by *dropping* undecodable input (the `errors="ignore"` handler) rather than
failing and translating universal newlines (`"\r\n"` and `"\r"` become
`"\n"`), and returns the total character count of the resulting text and a
preview capped at 4000 characters. -/
theorem C6_plain_text_ignore_decode (path : String) (o : DocOracle)
    (bs : List Nat) (hpdf : extOf path ≠ ".pdf") (hdocx : extOf path ≠ ".docx")
    (hread : o.fileBytes = .ok bs) :
    analyze_document path o =
      [("type", Val.vstr "document"),
       ("char_count", Val.vint (pyReadText bs).length),
       ("preview", Val.vstr ((pyReadText bs).take 4000))] := by
  simp [analyze_document, hpdf, hdocx, hread]

/-- C6 witness: the amended theorem at a `.txt` file whose bytes are an
invalid byte, `"a"`, a CRLF sequence, and `"b"` — the invalid byte is
dropped and the CRLF becomes a single newline, so the text is `"a\nb"`. -/
theorem C6_plain_text_ignore_decode_witness :
    analyze_document "n.txt"
        ⟨.ok [], .ok [], .ok [], .ok [0xFF, 0x61, 0x0D, 0x0A, 0x62]⟩ =
      [("type", Val.vstr "document"),
       ("char_count", Val.vint 3),
       ("preview", Val.vstr "a\nb")] := by
  have h := C6_plain_text_ignore_decode "n.txt"
    ⟨.ok [], .ok [], .ok [], .ok [0xFF, 0x61, 0x0D, 0x0A, 0x62]⟩
    [0xFF, 0x61, 0x0D, 0x0A, 0x62] (by decide) (by decide) rfl
  refine h.trans ?_
  simp only [String.take_eq]
  rfl

/-- Two prefixes with different first characters cannot both be prefixes of
the same string. -/
theorem pyStartsWith_disjoint (s : String) (c₁ c₂ : Char) (p₁ p₂ : List Char)
    (hne : c₁ ≠ c₂) (h : pyStartsWith s ⟨c₁ :: p₁⟩ = true) :
    pyStartsWith s ⟨c₂ :: p₂⟩ = false := by
  unfold pyStartsWith at h ⊢
  rw [List.isPrefixOf_iff_prefix] at h
  rw [Bool.eq_false_iff, ne_eq, List.isPrefixOf_iff_prefix]
  rcases hd : s.data with _ | ⟨d, ds⟩
  · rw [hd] at h
    simp at h
  · rw [hd] at h
    rw [List.cons_prefix_cons] at h
    rw [List.cons_prefix_cons]
    rintro ⟨rfl, -⟩
    exact hne h.1

/-- A string with a non-empty prefix is itself non-empty. -/
theorem pyStartsWith_ne_empty (s : String) (c : Char) (p : List Char)
    (h : pyStartsWith s ⟨c :: p⟩ = true) : s ≠ "" := by
  intro hs
  rw [hs] at h
  simp [pyStartsWith, List.isPrefixOf] at h

/-- C4: the kind classifier is total (it is a function) and deterministic,
the extension table decides the kind regardless of the declared content
type, and for unrecognized extensions the declared content type's top-level
media type decides, with `"other"` when it is absent or unrecognized. -/
theorem C4_kind_classifier_table (filename : String) (ct : Option String) :
    (extOf filename ∈ tabularExts → detect_kind filename ct = "tabular") ∧
    (extOf filename ∈ pdfTxtExts ++ docxExts →
       detect_kind filename ct = "document") ∧
    (extOf filename ∈ imageExts → detect_kind filename ct = "image") ∧
    (extOf filename ∈ audioExts → detect_kind filename ct = "audio") ∧
    (extOf filename ∈ videoExts → detect_kind filename ct = "video") ∧
    (extOf filename ∉ knownExts →
       (∀ s, ct = some s → pyStartsWith s "image/" = true →
          detect_kind filename ct = "image") ∧
       (∀ s, ct = some s → pyStartsWith s "audio/" = true →
          detect_kind filename ct = "audio") ∧
       (∀ s, ct = some s → pyStartsWith s "video/" = true →
          detect_kind filename ct = "video") ∧
       (∀ s, ct = some s → pyStartsWith s "image/" = false →
          pyStartsWith s "audio/" = false → pyStartsWith s "video/" = false →
          detect_kind filename ct = "other") ∧
       (ct = none → detect_kind filename ct = "other")) := by
  refine ⟨?_, ?_, ?_, ?_, ?_, ?_⟩
  · intro h
    rcases (by simpa [tabularExts] using h : _ ∨ _ ∨ _ ∨ _) with h | h | h | h <;>
      simp [detect_kind, tabularExts, pdfTxtExts, docxExts, imageExts,
        audioExts, videoExts, h]
  · intro h
    rcases (by simpa [pdfTxtExts, docxExts] using h : _ ∨ _ ∨ _) with h | h | h <;>
      simp [detect_kind, tabularExts, pdfTxtExts, docxExts, imageExts,
        audioExts, videoExts, h]
  · intro h
    rcases (by simpa [imageExts] using h : _ ∨ _ ∨ _ ∨ _ ∨ _) with
      h | h | h | h | h <;>
      simp [detect_kind, tabularExts, pdfTxtExts, docxExts, imageExts,
        audioExts, videoExts, h]
  · intro h
    rcases (by simpa [audioExts] using h : _ ∨ _ ∨ _) with h | h | h <;>
      simp [detect_kind, tabularExts, pdfTxtExts, docxExts, imageExts,
        audioExts, videoExts, h]
  · intro h
    rcases (by simpa [videoExts] using h : _ ∨ _ ∨ _ ∨ _) with h | h | h | h <;>
      simp [detect_kind, tabularExts, pdfTxtExts, docxExts, imageExts,
        audioExts, videoExts, h]
  · intro hk
    simp only [knownExts, List.append_assoc, List.mem_append, not_or] at hk
    obtain ⟨h1, h2, h3, h4, h5, h6⟩ := hk
    refine ⟨?_, ?_, ?_, ?_, ?_⟩
    · intro s hct hpre
      subst hct
      have hne := pyStartsWith_ne_empty s 'i' "mage/".data hpre
      simp [detect_kind, h1, h2, h3, h4, h5, h6, hne, hpre]
    · intro s hct hpre
      subst hct
      have hne := pyStartsWith_ne_empty s 'a' "udio/".data hpre
      have himg := pyStartsWith_disjoint s 'a' 'i' "udio/".data "mage/".data
        (by decide) hpre
      simp [detect_kind, h1, h2, h3, h4, h5, h6, hne, hpre, himg]
    · intro s hct hpre
      subst hct
      have hne := pyStartsWith_ne_empty s 'v' "ideo/".data hpre
      have himg := pyStartsWith_disjoint s 'v' 'i' "ideo/".data "mage/".data
        (by decide) hpre
      have haud := pyStartsWith_disjoint s 'v' 'a' "ideo/".data "udio/".data
        (by decide) hpre
      simp [detect_kind, h1, h2, h3, h4, h5, h6, hne, hpre, himg, haud]
    · intro s hct hpre1 hpre2 hpre3
      subst hct
      by_cases hs : s = "" <;>
        simp [detect_kind, h1, h2, h3, h4, h5, h6, hs, hpre1, hpre2, hpre3]
    · intro hct
      subst hct
      simp [detect_kind, h1, h2, h3, h4, h5, h6]

/-- C4 witness: the table wins over a contradictory content type
(`d.CSV` declared as `video/mp4` is tabular), an unknown extension falls
back to the media type (`track.xyz` declared `audio/ogg` is audio), and
an absent or unrecognized content type yields `other`. -/
theorem C4_kind_classifier_table_witness :
    detect_kind "d.CSV" (some "video/mp4") = "tabular" ∧
    detect_kind "track.xyz" (some "audio/ogg") = "audio" ∧
    detect_kind "notes" (some "text/plain") = "other" ∧
    detect_kind "notes" none = "other" :=
  ⟨(C4_kind_classifier_table "d.CSV" (some "video/mp4")).1 (by decide),
   (C4_kind_classifier_table "track.xyz" (some "audio/ogg")).2.2.2.2.2
     (by decide) |>.2.1 "audio/ogg" rfl (by decide),
   (C4_kind_classifier_table "notes" (some "text/plain")).2.2.2.2.2
     (by decide) |>.2.2.2.1 "text/plain" rfl (by decide) (by decide) (by decide),
   (C4_kind_classifier_table "notes" none).2.2.2.2.2 (by decide) |>.2.2.2.2 rfl⟩

/- Slash-freeness of the timestamp and of basenames, and the behaviour of
`pyJoin`/`pyDirname`/`pyBasename` on the paths `make_target_path` builds. -/

theorem digitChar_ne_slash (m : Nat) : Nat.digitChar m ≠ '/' := by
  by_cases h : m < 16
  · interval_cases m <;> decide
  · have hne : ∀ k, k < 16 → ¬ m = k := by omega
    have hstar : Nat.digitChar m = '*' := by
      unfold Nat.digitChar
      rw [if_neg (hne 0 (by norm_num)), if_neg (hne 1 (by norm_num)),
          if_neg (hne 2 (by norm_num)), if_neg (hne 3 (by norm_num)),
          if_neg (hne 4 (by norm_num)), if_neg (hne 5 (by norm_num)),
          if_neg (hne 6 (by norm_num)), if_neg (hne 7 (by norm_num)),
          if_neg (hne 8 (by norm_num)), if_neg (hne 9 (by norm_num)),
          if_neg (hne 10 (by norm_num)), if_neg (hne 11 (by norm_num)),
          if_neg (hne 12 (by norm_num)), if_neg (hne 13 (by norm_num)),
          if_neg (hne 14 (by norm_num)), if_neg (hne 15 (by norm_num))]
    rw [hstar]
    decide

theorem toDigitsCore_no_slash (b : Nat) :
    ∀ (f n : Nat) (ds : List Char), (∀ c ∈ ds, c ≠ '/') →
      ∀ c ∈ Nat.toDigitsCore b f n ds, c ≠ '/' := by
  intro f
  induction f with
  | zero =>
      intro n ds hds c hc
      exact hds c hc
  | succ f ih =>
      intro n ds hds c hc
      simp only [Nat.toDigitsCore] at hc
      by_cases h : n / b = 0
      · rw [if_pos h] at hc
        rcases List.mem_cons.mp hc with rfl | hmem
        · exact digitChar_ne_slash _
        · exact hds c hmem
      · rw [if_neg h] at hc
        refine ih (n / b) (Nat.digitChar (n % b) :: ds) ?_ c hc
        intro c' hc'
        rcases List.mem_cons.mp hc' with rfl | hmem
        · exact digitChar_ne_slash _
        · exact hds c' hmem

theorem repr_no_slash (n : Nat) : ∀ c ∈ (Nat.repr n).data, c ≠ '/' := by
  intro c hc
  simp only [Nat.repr, Nat.toDigits, List.asString] at hc
  exact toDigitsCore_no_slash 10 (n + 1) n [] (by simp) c hc

theorem padNum_no_slash (w n : Nat) : ∀ c ∈ (padNum w n).data, c ≠ '/' := by
  intro c hc
  have : (padNum w n).data =
      List.replicate (w - (toString n).length) '0' ++ (Nat.repr n).data := rfl
  rw [this] at hc
  rcases List.mem_append.mp hc with hmem | hmem
  · have := List.eq_of_mem_replicate hmem
    subst this
    decide
  · exact repr_no_slash n c hmem

theorem strftimeStamp_no_slash (t : DT) :
    ∀ c ∈ (strftimeStamp t).data, c ≠ '/' := by
  intro c hc
  have hd : (strftimeStamp t).data =
      (padNum 4 t.year).data ++ (padNum 2 t.month).data ++ (padNum 2 t.day).data
        ++ ['_'] ++ (padNum 2 t.hour).data ++ (padNum 2 t.minute).data
        ++ (padNum 2 t.second).data ++ ['_'] ++ (padNum 6 t.usec).data := by
    simp [strftimeStamp, String.data_append]
  rw [hd] at hc
  simp only [List.mem_append, List.mem_singleton] at hc
  rcases hc with ((((((((h | h) | h) | h) | h) | h) | h) | h) | h)
  · exact padNum_no_slash 4 t.year c h
  · exact padNum_no_slash 2 t.month c h
  · exact padNum_no_slash 2 t.day c h
  · subst h; decide
  · exact padNum_no_slash 2 t.hour c h
  · exact padNum_no_slash 2 t.minute c h
  · exact padNum_no_slash 2 t.second c h
  · subst h; decide
  · exact padNum_no_slash 6 t.usec c h

theorem pyBasename_no_slash (s : String) :
    ∀ c ∈ (pyBasename s).data, c ≠ '/' := by
  intro c hc
  have hc' : c ∈ s.data.reverse.takeWhile (fun c => c ≠ '/') :=
    List.mem_reverse.mp hc
  have := List.mem_takeWhile_imp hc'
  simpa using this

/-- Characters of the `<timestamp>_<basename>` component. -/
theorem final_name_no_slash (t : DT) (filename : String) :
    ∀ c ∈ (strftimeStamp t ++ "_" ++ pyBasename filename).data, c ≠ '/' := by
  intro c hc
  have hd : (strftimeStamp t ++ "_" ++ pyBasename filename).data =
      (strftimeStamp t).data ++ ['_'] ++ (pyBasename filename).data := by
    simp [String.data_append]
  rw [hd] at hc
  simp only [List.mem_append, List.mem_singleton] at hc
  rcases hc with (h | h) | h
  · exact strftimeStamp_no_slash t c h
  · subst h; decide
  · exact pyBasename_no_slash filename c h

theorem head?_ne_slash_of_no_slash (l : List Char)
    (h : ∀ c ∈ l, c ≠ '/') : l.head? ≠ some '/' := by
  cases l with
  | nil => simp
  | cons a t =>
      intro hh
      injection hh with h'
      exact h a (List.mem_cons_self a t) h'

theorem lookup_val_mem {α β : Type} [BEq α] {k : α} {v : β} :
    ∀ {l : List (α × β)}, l.lookup k = some v → v ∈ l.map Prod.snd := by
  intro l
  induction l with
  | nil => intro h; simp [List.lookup] at h
  | cons hd tl ih =>
      intro h
      rw [List.lookup] at h
      rcases hbeq : k == hd.1 with _ | _
      · rw [hbeq] at h
        exact List.mem_cons_of_mem _ (ih h)
      · rw [hbeq] at h
        injection h with h
        exact h ▸ List.mem_cons_self _ _

/-- The sub-directory chosen for any kind is one of the six configured
folders. -/
theorem folderOf_mem (kind : String) :
    folderOf kind ∈ ["images", "videos", "audio", "documents", "tabular",
      "other"] := by
  unfold folderOf
  rcases hl : FOLDERS.lookup kind with _ | v
  · simp
  · have := lookup_val_mem hl
    simp only [FOLDERS, List.map] at this
    simpa using this

/-- The last character of the chosen sub-directory, which is never a
slash. -/
theorem folderOf_shape (kind : String) :
    ∃ c, (folderOf kind).data.getLast? = some c ∧ c ≠ '/' ∧
      (folderOf kind).data.head? ≠ some '/' := by
  have h6 := folderOf_mem kind
  simp only [List.mem_cons, List.not_mem_nil, or_false] at h6
  rcases h6 with h | h | h | h | h | h <;> rw [h]
  · exact ⟨'s', by decide, by decide, by decide⟩
  · exact ⟨'s', by decide, by decide, by decide⟩
  · exact ⟨'o', by decide, by decide, by decide⟩
  · exact ⟨'s', by decide, by decide, by decide⟩
  · exact ⟨'r', by decide, by decide, by decide⟩
  · exact ⟨'r', by decide, by decide, by decide⟩

theorem pyJoin_getLast_of_sub (root sub : String)
    (hhead : sub.data.head? ≠ some '/') (c : Char)
    (hlast : sub.data.getLast? = some c) :
    (pyJoin root sub).data.getLast? = some c := by
  have hne : sub.data ≠ [] := by
    intro h
    rw [h] at hlast
    simp at hlast
  unfold pyJoin
  rw [if_neg hhead]
  by_cases hroot : root = "" ∨ root.data.getLast? = some '/'
  · rw [if_pos hroot]
    show (root.data ++ sub.data).getLast? = some c
    rw [List.getLast?_append_of_ne_nil _ hne]
    exact hlast
  · rw [if_neg hroot]
    show ((root ++ "/").data ++ sub.data).getLast? = some c
    rw [List.getLast?_append_of_ne_nil _ hne]
    exact hlast

theorem pyJoin_eq_append (X b : String) (hbhead : b.data.head? ≠ some '/')
    (c : Char) (hlast : X.data.getLast? = some c) (hc : c ≠ '/') :
    pyJoin X b = X ++ "/" ++ b := by
  unfold pyJoin
  rw [if_neg hbhead, if_neg]
  rintro (h1 | h2)
  · rw [h1] at hlast
    simp at hlast
  · rw [hlast] at h2
    injection h2 with h2
    exact hc h2

/-- `os.path.basename` of `X ++ "/" ++ final` is `final` when `final`
contains no slash. -/
theorem pyBasename_append (X final : String)
    (hf : ∀ c ∈ final.data, c ≠ '/') :
    pyBasename (X ++ "/" ++ final) = final := by
  have hdata : (X ++ "/" ++ final).data = (X.data ++ ['/']) ++ final.data := by
    simp [String.data_append]
  unfold pyBasename basenameL
  rw [hdata, List.reverse_append, List.reverse_append]
  have hall : ∀ c ∈ final.data.reverse,
      (fun c => decide (c ≠ '/')) c = true := by
    intro c hc
    simpa using hf c (List.mem_reverse.mp hc)
  rw [List.takeWhile_append_of_pos hall]
  simp

/-- `os.path.dirname` of `X ++ "/" ++ final` is `X` when `final` contains no
slash and `X` ends in a non-slash character. -/
theorem pyDirname_append (X final : String)
    (hf : ∀ c ∈ final.data, c ≠ '/') (c : Char)
    (hlast : X.data.getLast? = some c) (hc : c ≠ '/') :
    pyDirname (X ++ "/" ++ final) = X := by
  have hdata : (X ++ "/" ++ final).data = (X.data ++ ['/']) ++ final.data := by
    simp [String.data_append]
  unfold pyDirname
  simp only []
  rw [hdata, List.reverse_append, List.reverse_append]
  have hall : ∀ ch ∈ final.data.reverse,
      (fun ch => decide (ch ≠ '/')) ch = true := by
    intro ch hch
    simpa using hf ch (List.mem_reverse.mp hch)
  rw [List.takeWhile_append_of_pos hall]
  have htake : (['/'].reverse ++ X.data.reverse).takeWhile
      (fun ch => decide (ch ≠ '/')) = [] := by
    simp [List.takeWhile]
  rw [htake, List.append_nil]
  rw [if_neg (by
    simp only [List.length_append, List.length_reverse, List.length_cons]
    omega)]
  have hdrop : ((final.data.reverse ++ (['/'].reverse ++ X.data.reverse)).drop
      final.data.reverse.length) = ['/'].reverse ++ X.data.reverse := by
    rw [List.drop_left]
  rw [hdrop]
  have hmem : c ∈ X.data := List.mem_of_mem_getLast? hlast
  rw [if_neg (by
    simp only [List.all_eq_true]
    intro hall2
    have := hall2 c (by
      simp only [List.reverse_append, List.reverse_reverse, List.mem_append]
      exact Or.inl hmem)
    simp at this
    exact hc this)]
  obtain ⟨rest, hrest⟩ : ∃ rest, X.data.reverse = c :: rest := by
    have hh : X.data.reverse.head? = some c := by
      rw [List.head?_reverse]
      exact hlast
    rcases hx : X.data.reverse with _ | ⟨a, t⟩
    · rw [hx] at hh
      simp at hh
    · rw [hx] at hh
      injection hh with hh
      exact ⟨t, by rw [hh]⟩
  have hrev : (['/'].reverse ++ X.data.reverse).reverse.reverse =
      '/' :: X.data.reverse := by
    simp
  rw [hrev, List.dropWhile_cons_of_pos (by decide), hrest,
    List.dropWhile_cons_of_neg (by simpa using hc)]
  rw [← hrest]
  simp

/-- C9: for every kind and filename, the built path's directory component is
`root/<kind-subdir>` and its basename is the microsecond-resolution UTC
timestamp followed by `"_"` and the directory-stripped original filename.
The path builder is a pure function of its arguments (no filesystem
access). -/
theorem C9_path_builder_shape (root kind filename : String) (t : DT) :
    pyDirname (make_target_path root kind filename t) =
      pyJoin root (folderOf kind) ∧
    pyBasename (make_target_path root kind filename t) =
      strftimeStamp t ++ "_" ++ pyBasename filename := by
  obtain ⟨c, hlast, hc, hhead⟩ := folderOf_shape kind
  have hXlast : (pyJoin root (folderOf kind)).data.getLast? = some c :=
    pyJoin_getLast_of_sub root (folderOf kind) hhead c hlast
  have hfin := final_name_no_slash t filename
  have hfhead : (strftimeStamp t ++ "_" ++ pyBasename filename).data.head? ≠
      some '/' :=
    head?_ne_slash_of_no_slash _ hfin
  have hshape : make_target_path root kind filename t =
      pyJoin root (folderOf kind) ++ "/" ++
        (strftimeStamp t ++ "_" ++ pyBasename filename) := by
    show pyJoin (pyJoin root (folderOf kind))
        (strftimeStamp t ++ "_" ++ pyBasename filename) = _
    exact pyJoin_eq_append _ _ hfhead c hXlast hc
  rw [hshape]
  exact ⟨pyDirname_append _ _ hfin c hXlast hc,
    pyBasename_append _ _ hfin⟩

/-- C1: `process_files` returns exactly one record per input file, in input
order (record `i` belongs to input `i` and carries its filename), however
many files fail at any stage: a save failure keeps the record with
`stored_path = null` and an `error` field in the summary, an analysis
failure keeps the record with an `error` field, and the unexpected-error
path (a missing filename) yields the fatal record with `kind = "unknown"` —
the record is never omitted and the batch never aborts. -/
theorem C1_batch_one_record_per_file (files : List UploadFile) :
    (process_files files).files.length = files.length ∧
    (∀ (i : Nat) (f : UploadFile), files[i]? = some f →
       (process_files files).files[i]? = some (processOne f) ∧
       (processOne f).original_name = f.filename ∧
       (f.filename = none →
          (processOne f).kind = "unknown" ∧
          (processOne f).stored_path = none ∧
          hasError (processOne f).summary = true) ∧
       (∀ name e, f.filename = some name → f.save = .error e →
          (processOne f).stored_path = none ∧
          hasError (processOne f).summary = true) ∧
       (∀ name e, f.filename = some name → f.save = .ok () →
          f.analysis = .error e →
          hasError (processOne f).summary = true)) := by
  constructor
  · simp [process_files]
  · intro i f hf
    refine ⟨?_, ?_, ?_, ?_, ?_⟩
    · simp [process_files, List.getElem?_map, hf]
    · rcases hn : f.filename with _ | name
      · simp [processOne, hn]
      · rcases hs : f.save with e | u
        · simp [processOne, hn, hs]
        · simp [processOne, hn, hs]
    · intro hn
      simp [processOne, hn, hasError, List.lookup]
    · intro name e hn hs
      simp [processOne, hn, hs, hasError, List.lookup]
    · intro name e hn hs ha
      simp [processOne, hn, hs, ha, hasError, List.lookup]

/-- A batch exercising all three failure stages plus a success. -/
def demoBatch : List UploadFile :=
  [⟨some "report.pdf", some "application/pdf", dt0, .error "disk full", .ok []⟩,
   ⟨some "data.csv", none, dt0, .ok (), .error "pandas raised"⟩,
   ⟨none, none, dt0, .ok (), .ok []⟩,
   ⟨some "img.png", none, dt0, .ok (), .ok [("type", .vstr "image")]⟩]

/-- C1 witness: the four-file batch — save failure, analysis failure,
missing filename, success — yields exactly four records in order, each
failure captured inside its record. -/
theorem C1_batch_one_record_per_file_witness :
    (process_files demoBatch).files.length = 4 ∧
    (process_files demoBatch).files[0]? = some (processOne demoBatch[0]) ∧
    (processOne demoBatch[0]).original_name = some "report.pdf" ∧
    (processOne demoBatch[0]).stored_path = none ∧
    hasError (processOne demoBatch[0]).summary = true ∧
    hasError (processOne demoBatch[1]).summary = true ∧
    (processOne demoBatch[2]).kind = "unknown" ∧
    (processOne demoBatch[3]).summary = [("type", Val.vstr "image")] := by
  have h := C1_batch_one_record_per_file demoBatch
  obtain ⟨hlen, hidx⟩ := h
  obtain ⟨h0a, h0b, -, h0d, -⟩ := hidx 0 demoBatch[0] rfl
  obtain ⟨-, -, -, -, h1e⟩ := hidx 1 demoBatch[1] rfl
  obtain ⟨-, -, h2c, -, -⟩ := hidx 2 demoBatch[2] rfl
  refine ⟨hlen, h0a, ?_, ?_, ?_, ?_, ?_, ?_⟩
  · exact h0b
  · exact (h0d "report.pdf" "disk full" rfl rfl).1
  · exact (h0d "report.pdf" "disk full" rfl rfl).2
  · exact h1e "data.csv" "pandas raised" rfl rfl rfl
  · exact (h2c rfl).1
  · rfl

end FilePipeline
